import Mathlib

/-!
Shallow embedding of the kusari-uploader blocked-package checker and upload
helpers (Go sources: main.go and the unnamed main variant), together with
proofs of the specified properties.

The HTTP world is modelled by environments: for each entry, a function from
attempt number to the identity-endpoint response, and a function from resolved
identifiers to the check-endpoint response.  Wall-clock time is modelled in
seconds: each 404 backoff sleep costs one second, and the overall operation is
bounded by a 15-minute deadline, after which requests fail with a context
deadline error.  Every function records the URLs of the HTTP requests it
actually issues (its trace) and the stdout lines it prints.
-/

namespace KusariUploader

/-- Mirror of the Go struct sbomSubjectAndURI. -/
structure sbomSubjectAndURI where
  subject : String
  uri : String
deriving DecidableEq, Repr

/-- Mirror of the Go struct softwareIDAndSbomID (JSON fields software_id, sbom_id). -/
structure softwareIDAndSbomID where
  software_id : Int
  sbom_id : Int
deriving DecidableEq, Repr

/-- Mirror of the Go struct blockedPackages (JSON fields blocked, blocked_packages). -/
structure blockedPackages where
  blocked : Bool
  blocked_packages : List String
deriving DecidableEq, Repr

/-- Result of reading and decoding an HTTP response body: io.ReadAll may fail,
json.Unmarshal may fail, or a decoded value is produced. -/
inductive Body (α : Type) where
  | readErr : Body α
  | parseErr : Body α
  | ok : α → Body α
deriving DecidableEq, Repr

/-- Result of one HTTP round trip: either the transport fails (client.Do returns
an error) or a response with a status code and a body arrives. -/
inductive ReqResult (α : Type) where
  | transportErr : String → ReqResult α
  | response : Nat → Body α → ReqResult α
deriving DecidableEq, Repr

/-- The HTTP world one entry's task interacts with: the identity endpoint
response for each polling attempt, and the check endpoint response for the
resolved identifiers. -/
structure EntryEnv where
  idResp : Nat → ReqResult softwareIDAndSbomID
  checkResp : softwareIDAndSbomID → ReqResult blockedPackages

/-- The errors checkSBOMsForBlockedPackages can return, one constructor per
fmt.Errorf site in the entry task. -/
inductive CheckErr where
  | idsReq : String → CheckErr
  | idsRead : CheckErr
  | idsUnmarshal : CheckErr
  | idsStatus : Nat → CheckErr
  | checkReq : String → CheckErr
  | checkRead : CheckErr
  | checkUnmarshal : CheckErr
  | checkStatus : Nat → CheckErr
deriving DecidableEq, Repr

/-- UTF-8 encoding of a unicode code point, as byte values. -/
def utf8EncodeCharBytes (n : Nat) : List Nat :=
  if n < 128 then [n]
  else if n < 2048 then [192 + n / 64, 128 + n % 64]
  else if n < 65536 then [224 + n / 4096, 128 + n / 64 % 64, 128 + n % 64]
  else [240 + n / 262144, 128 + n / 4096 % 64, 128 + n / 64 % 64, 128 + n % 64]

/-- The UTF-8 bytes of a string (Go strings are byte slices in UTF-8). -/
def utf8Bytes (s : String) : List Nat :=
  s.data.flatMap (fun c => utf8EncodeCharBytes c.toNat)

/-- The uppercase hex digit table of Go net/url percent-encoding. -/
def upperHexTable : String := "0123456789ABCDEF"

/-- Digit lookup for percent-encoding. -/
def upperHexDigit (n : Nat) : Char := upperHexTable.data.getD n '0'

/-- Go net/url shouldEscape for a query component: letters, digits and
the marks dash, underscore, dot, tilde are kept, everything else is escaped. -/
def isUnreservedQueryByte (b : Nat) : Bool :=
  decide ((65 ≤ b ∧ b ≤ 90) ∨ (97 ≤ b ∧ b ≤ 122) ∨ (48 ≤ b ∧ b ≤ 57) ∨
    b = 45 ∨ b = 95 ∨ b = 46 ∨ b = 126)

/-- Escape one byte the way Go url.QueryEscape does: unreserved bytes are kept,
space becomes a plus sign, all other bytes become a percent and two uppercase
hex digits. -/
def escapeQueryByte (b : Nat) : List Char :=
  if isUnreservedQueryByte b then [Char.ofNat b]
  else if b = 32 then ['+']
  else ['%', upperHexDigit (b / 16 % 16), upperHexDigit (b % 16)]

/-- Mirror of Go url.QueryEscape. -/
def queryEscape (s : String) : String :=
  String.mk ((utf8Bytes s).flatMap escapeQueryByte)

/-- The path-and-query of the identity lookup request built in the entry task
with fmt.Sprintf and url.QueryEscape. -/
def idLookupPath (ssau : sbomSubjectAndURI) : String :=
  "pico/v1/software/id?software_name=" ++ queryEscape ssau.subject ++
    "&sbom_uri=" ++ queryEscape ssau.uri

/-- The path of the block-check request built from the resolved identifiers. -/
def checkPath (ids : softwareIDAndSbomID) : String :=
  "pico/v1/packages/blocked/check/software/" ++ toString ids.software_id ++
    "/sbom/" ++ toString ids.sbom_id

/-- makePicoReq builds the URL as tenantURL, a slash, then the path. -/
def picoURL (tenant path : String) : String := tenant ++ "/" ++ path

/-- The overall deadline of checkSBOMsForBlockedPackages, in seconds:
context.WithTimeout(ctx, 15*time.Minute). -/
def timeoutSecs : Nat := 15 * 60

/-- The concurrency limit set on the errgroup: g.SetLimit(5). -/
def errgroupLimit : Nat := 5

/-- The identity-resolution loop of the entry task.  The fuel argument is kept
equal to the seconds remaining until the overall deadline; each 404 backoff
sleeps one second, so fuel runs out exactly when the deadline elapses, at which
point the next request fails with a context deadline error.  Returns the trace
of issued request URLs and either an error or the decoded identifiers together
with the elapsed time at loop exit. -/
def resolveLoopGo (env : EntryEnv) (tenant : String) (ssau : sbomSubjectAndURI) :
    Nat → Nat → Nat → List String × Except CheckErr (softwareIDAndSbomID × Nat)
  | 0, _, _ => ([], Except.error (CheckErr.idsReq "context deadline exceeded"))
  | fuel + 1, attempt, elapsed =>
    match env.idResp attempt with
    | ReqResult.transportErr m =>
        ([picoURL tenant (idLookupPath ssau)], Except.error (CheckErr.idsReq m))
    | ReqResult.response s b =>
        if s = 200 then
          match b with
          | Body.readErr =>
              ([picoURL tenant (idLookupPath ssau)], Except.error CheckErr.idsRead)
          | Body.parseErr =>
              ([picoURL tenant (idLookupPath ssau)], Except.error CheckErr.idsUnmarshal)
          | Body.ok ids =>
              ([picoURL tenant (idLookupPath ssau)], Except.ok (ids, elapsed))
        else if s = 404 then
          match resolveLoopGo env tenant ssau fuel (attempt + 1) (elapsed + 1) with
          | (tr, r) => (picoURL tenant (idLookupPath ssau) :: tr, r)
        else
          ([picoURL tenant (idLookupPath ssau)], Except.error (CheckErr.idsStatus s))

/-- The identity-resolution loop entered with a given attempt counter and
elapsed time; the deadline grants timeoutSecs - elapsed further seconds. -/
def resolveLoop (env : EntryEnv) (tenant : String) (ssau : sbomSubjectAndURI)
    (attempt elapsed : Nat) : List String × Except CheckErr (softwareIDAndSbomID × Nat) :=
  resolveLoopGo env tenant ssau (timeoutSecs - elapsed) attempt elapsed

/-- The body of one entry's task (the closure passed to g.Go): resolve the
identifiers by polling, then issue the block-check request and record the
outcome.  Returns the trace of issued request URLs and either an error or the
values written into this entry's blocked and blockedPurls slots. -/
def entryTask (env : EntryEnv) (tenant : String) (ssau : sbomSubjectAndURI) :
    List String × Except CheckErr (Bool × List String) :=
  match resolveLoop env tenant ssau 0 0 with
  | (tr, Except.error e) => (tr, Except.error e)
  | (tr, Except.ok (ids, elapsed)) =>
    if timeoutSecs ≤ elapsed then
      (tr, Except.error (CheckErr.checkReq "context deadline exceeded"))
    else
      match env.checkResp ids with
      | ReqResult.transportErr m =>
          (tr ++ [picoURL tenant (checkPath ids)], Except.error (CheckErr.checkReq m))
      | ReqResult.response s b =>
          if s = 200 then
            match b with
            | Body.readErr =>
                (tr ++ [picoURL tenant (checkPath ids)], Except.error CheckErr.checkRead)
            | Body.parseErr =>
                (tr ++ [picoURL tenant (checkPath ids)], Except.error CheckErr.checkUnmarshal)
            | Body.ok bps =>
                if bps.blocked then
                  (tr ++ [picoURL tenant (checkPath ids)], Except.ok (true, bps.blocked_packages))
                else
                  (tr ++ [picoURL tenant (checkPath ids)], Except.ok (false, []))
          else
            (tr ++ [picoURL tenant (checkPath ids)], Except.error (CheckErr.checkStatus s))

/-- One entry of the dispatch loop: an entry whose subject and uri are both
empty is skipped (continue), leaving its result slots at their defaults and
issuing no request; otherwise its task runs. -/
def entryResult (env : EntryEnv) (tenant : String) (ssau : sbomSubjectAndURI) :
    List String × Except CheckErr (Bool × List String) :=
  if ssau.subject = "" ∧ ssau.uri = "" then ([], Except.ok (false, []))
  else entryTask env tenant ssau

/-- The dispatch loop over the entries, with fail-fast error propagation as
g.Wait provides: on the first entry whose task errors the whole pass stops with
that error; otherwise all per-entry slot values are collected in input order. -/
def checkLoop (env : Nat → EntryEnv) (tenant : String) :
    Nat → List sbomSubjectAndURI → List String × Except CheckErr (List (Bool × List String))
  | _, [] => ([], Except.ok [])
  | i, ssau :: rest =>
    match entryResult (env i) tenant ssau with
    | (tr, Except.error e) => (tr, Except.error e)
    | (tr, Except.ok o) =>
      match checkLoop env tenant (i + 1) rest with
      | (tr2, Except.error e) => (tr ++ tr2, Except.error e)
      | (tr2, Except.ok os) => (tr ++ tr2, Except.ok (o :: os))

/-- The reporting loop run after a successful g.Wait: for every entry whose
blocked slot is set, print the header line, then each blocked package
identifier on its own line, then an empty line. -/
def reportLines (ssaus : List sbomSubjectAndURI) (os : List (Bool × List String)) :
    List String :=
  (ssaus.zip os).flatMap (fun p =>
    if p.2.1 then
      ("Blocked packages found for SBOM subject " ++ p.1.subject ++ " with URI " ++ p.1.uri)
        :: p.2.2 ++ [""]
    else [])

/-- The observable behaviour of one call to checkSBOMsForBlockedPackages: the
HTTP requests issued, the stdout lines printed, and the returned value. -/
structure CheckRun where
  trace : List String
  stdout : List String
  result : Except CheckErr Bool

/-- Mirror of checkSBOMsForBlockedPackages: dispatch all entry tasks, and on
success print the report and return whether any entry was blocked
(slices.Contains(blocked, true)); on error return it with no reporting. -/
def checkSBOMsForBlockedPackages (env : Nat → EntryEnv) (tenant : String)
    (ssaus : List sbomSubjectAndURI) : CheckRun :=
  match checkLoop env tenant 0 ssaus with
  | (tr, Except.error e) => ⟨tr, [], Except.error e⟩
  | (tr, Except.ok os) => ⟨tr, reportLines ssaus os, Except.ok (os.any (fun o => o.1))⟩

/-! ### SHA-256 (Go crypto/sha256, FIPS 180-4) and the document reference -/

/-- Truncation to a 32-bit word. -/
def w32 (x : Nat) : Nat := x % 4294967296

/-- 32-bit modular addition. -/
def add32 (a b : Nat) : Nat := (a + b) % 4294967296

/-- 32-bit right rotation. -/
def rotr32 (n x : Nat) : Nat := w32 (x >>> n ||| x <<< (32 - n))

/-- SHA-256 Ch function. -/
def ch32 (x y z : Nat) : Nat := Nat.xor (Nat.land x y) (Nat.land (Nat.xor (w32 x) 4294967295) z)

/-- SHA-256 Maj function. -/
def maj32 (x y z : Nat) : Nat := Nat.xor (Nat.xor (Nat.land x y) (Nat.land x z)) (Nat.land y z)

/-- SHA-256 big Sigma 0. -/
def bsig0 (x : Nat) : Nat := Nat.xor (Nat.xor (rotr32 2 x) (rotr32 13 x)) (rotr32 22 x)

/-- SHA-256 big Sigma 1. -/
def bsig1 (x : Nat) : Nat := Nat.xor (Nat.xor (rotr32 6 x) (rotr32 11 x)) (rotr32 25 x)

/-- SHA-256 small sigma 0. -/
def ssig0 (x : Nat) : Nat := Nat.xor (Nat.xor (rotr32 7 x) (rotr32 18 x)) (x >>> 3)

/-- SHA-256 small sigma 1. -/
def ssig1 (x : Nat) : Nat := Nat.xor (Nat.xor (rotr32 17 x) (rotr32 19 x)) (x >>> 10)

/-- The 64 SHA-256 round constants (decimal). -/
def sha256K : List Nat :=
  [1116352408, 1899447441, 3049323471, 3921009573, 961987163, 1508970993,
   2453635748, 2870763221, 3624381080, 310598401, 607225278, 1426881987,
   1925078388, 2162078206, 2614888103, 3248222580, 3835390401, 4022224774,
   264347078, 604807628, 770255983, 1249150122, 1555081692, 1996064986,
   2554220882, 2821834349, 2952996808, 3210313671, 3336571891, 3584528711,
   113926993, 338241895, 666307205, 773529912, 1294757372, 1396182291,
   1695183700, 1986661051, 2177026350, 2456956037, 2730485921, 2820302411,
   3259730800, 3345764771, 3516065817, 3600352804, 4094571909, 275423344,
   430227734, 506948616, 659060556, 883997877, 958139571, 1322822218,
   1537002063, 1747873779, 1955562222, 2024104815, 2227730452, 2361852424,
   2428436474, 2756734187, 3204031479, 3329325298]

/-- Big-endian encoding of a 64-bit length, as 8 byte values. -/
def be64 (n : Nat) : List Nat :=
  [n / 72057594037927936 % 256, n / 281474976710656 % 256, n / 1099511627776 % 256,
   n / 4294967296 % 256, n / 16777216 % 256, n / 65536 % 256, n / 256 % 256, n % 256]

/-- Big-endian encoding of a 32-bit word, as 4 byte values. -/
def be32 (n : Nat) : List Nat :=
  [n / 16777216 % 256, n / 65536 % 256, n / 256 % 256, n % 256]

/-- SHA-256 message padding: a 0x80 byte, zeros to 56 mod 64, then the bit
length as a big-endian 64-bit integer. -/
def sha256Pad (msg : List Nat) : List Nat :=
  msg ++ 128 :: List.replicate ((64 - (msg.length + 9) % 64) % 64) 0 ++ be64 (8 * msg.length)

/-- Split a byte list into chunks of 64 (fuel-driven so closed terms reduce). -/
def chunksGo : Nat → List Nat → List (List Nat)
  | 0, _ => []
  | fuel + 1, l => if l.length = 0 then [] else l.take 64 :: chunksGo fuel (l.drop 64)

/-- Split a byte list into its 64-byte blocks. -/
def chunks64 (l : List Nat) : List (List Nat) := chunksGo l.length l

/-- The 32-bit big-endian word at index i of a block. -/
def be32At (l : List Nat) (i : Nat) : Nat :=
  l.getD (4 * i) 0 * 16777216 + l.getD (4 * i + 1) 0 * 65536 +
    l.getD (4 * i + 2) 0 * 256 + l.getD (4 * i + 3) 0

/-- Extend the message schedule by the given number of words. -/
def extendSchedule : List Nat → Nat → List Nat
  | w, 0 => w
  | w, fuel + 1 =>
    extendSchedule
      (w ++ [add32 (add32 (ssig1 (w.getD (w.length - 2) 0)) (w.getD (w.length - 7) 0))
        (add32 (ssig0 (w.getD (w.length - 15) 0)) (w.getD (w.length - 16) 0))]) fuel

/-- The 64-word message schedule of one block. -/
def schedule (block : List Nat) : List Nat :=
  extendSchedule ((List.range 16).map (fun i => w32 (be32At block i))) 48

/-- The eight SHA-256 working variables. -/
structure Hash8 where
  a : Nat
  b : Nat
  c : Nat
  d : Nat
  e : Nat
  f : Nat
  g : Nat
  h : Nat

/-- One SHA-256 compression round. -/
def sha256Round (k w : Nat) (s : Hash8) : Hash8 :=
  ⟨add32 (add32 s.h (add32 (bsig1 s.e) (add32 (ch32 s.e s.f s.g) (add32 k w))))
      (add32 (bsig0 s.a) (maj32 s.a s.b s.c)),
    s.a, s.b, s.c,
    add32 s.d (add32 s.h (add32 (bsig1 s.e) (add32 (ch32 s.e s.f s.g) (add32 k w)))),
    s.e, s.f, s.g⟩

/-- Process one 64-byte block: run the 64 rounds and add into the hash value. -/
def compressBlock (hv : Hash8) (block : List Nat) : Hash8 :=
  match (List.zip sha256K (schedule block)).foldl (fun st p => sha256Round p.1 p.2 st) hv with
  | s => ⟨add32 hv.a s.a, add32 hv.b s.b, add32 hv.c s.c, add32 hv.d s.d,
      add32 hv.e s.e, add32 hv.f s.f, add32 hv.g s.g, add32 hv.h s.h⟩

/-- The SHA-256 initial hash value (decimal). -/
def sha256H0 : Hash8 :=
  ⟨1779033703, 3144134277, 1013904242, 2773480762,
    1359893119, 2600822924, 528734635, 1541459225⟩

/-- SHA-256 of a byte sequence, as the 32 digest bytes (Go sha256.Sum256). -/
def sha256Bytes (msg : List Nat) : List Nat :=
  match (chunks64 (sha256Pad msg)).foldl compressBlock sha256H0 with
  | hv => be32 hv.a ++ be32 hv.b ++ be32 hv.c ++ be32 hv.d ++
      be32 hv.e ++ be32 hv.f ++ be32 hv.g ++ be32 hv.h

/-- The lowercase hex digit table of Go encoding/hex. -/
def hexTable : String := "0123456789abcdef"

/-- Digit lookup for hex encoding. -/
def lowerHexDigit (n : Nat) : Char := hexTable.data.getD n '0'

/-- Mirror of Go hex.EncodeToString over byte values: two lowercase hex digits
per byte, high nibble first. -/
def hexEncodeBytes (l : List Nat) : List Char :=
  l.flatMap (fun b => [lowerHexDigit (b / 16 % 16), lowerHexDigit (b % 16)])

/-- Mirror of getHash: hex.EncodeToString(sha256.Sum256(data)). -/
def getHash (data : List Nat) : String := String.mk (hexEncodeBytes (sha256Bytes data))

/-- Mirror of getKey: the string sha256_ followed by the hash. -/
def getKey (blob : List Nat) : String := "sha256_" ++ getHash blob

/-- Mirror of getDocRef: the blob store key of a blob. -/
def getDocRef (blob : List Nat) : String := getKey blob

/-- The filename field of the presign request payload built in uploadSingleFile. -/
def presignFilename (blob : List Nat) : String := getDocRef blob

/-- The DocumentRef field of the Document envelope built in uploadBlob. -/
def documentRef (blob : List Nat) : String := getDocRef blob

/-! ### Subject and URI extraction in uploadBlob -/

/-- Mirror of the component struct nested in cdxSBOM metadata. -/
structure cdxComponent where
  name : String

/-- Mirror of the metadata struct nested in cdxSBOM. -/
structure cdxMetadata where
  component : cdxComponent

/-- Mirror of the Go struct cdxSBOM. -/
structure cdxSBOM where
  bomFormat : String
  serialNumber : String
  metadata : cdxMetadata

/-- Mirror of the Go struct spdxSBOM. -/
structure spdxSBOM where
  SPDXID : String
  documentNamespace : String
  name : String

/-- The errors uploadBlob can return once the envelope is marshalled: a failed
client.Do, a 401, or any other unexpected status. -/
inductive UploadErr where
  | doErr : String → UploadErr
  | unauthorized : Nat → UploadErr
  | unexpectedStatus : Nat → UploadErr
deriving DecidableEq, Repr

/-- The SPDX arm of the extraction at the end of uploadBlob. -/
def extractSPDX (spdx : Option spdxSBOM) : sbomSubjectAndURI :=
  match spdx with
  | some s =>
    if s.SPDXID = "SPDXRef-DOCUMENT" ∧ s.name ≠ "" ∧ s.documentNamespace ≠ "" then
      ⟨s.name, s.documentNamespace ++ "#DOCUMENT"⟩
    else ⟨"", ""⟩
  | none => ⟨"", ""⟩

/-- The subject and URI extraction at the end of uploadBlob.  The arguments are
the results of json.Unmarshal of the file bytes into the cdxSBOM and spdxSBOM
structs (none when unmarshalling fails, as for malformed JSON). -/
def extractSubjectAndURI (cdx : Option cdxSBOM) (spdx : Option spdxSBOM) : sbomSubjectAndURI :=
  match cdx with
  | some c =>
    if c.bomFormat = "CycloneDX" ∧ c.metadata.component.name ≠ "" ∧ c.serialNumber ≠ "" then
      ⟨c.metadata.component.name, c.serialNumber⟩
    else extractSPDX spdx
  | none => extractSPDX spdx

/-- Mirror of uploadBlob from the PUT of the marshalled envelope onward: the
first argument is the outcome of the PUT over the presigned URL, the other two
are the unmarshal results of the file bytes.  On a 200 the best-effort
extraction runs; it never produces an error. -/
def uploadBlob (putResp : ReqResult Unit) (cdx : Option cdxSBOM) (spdx : Option spdxSBOM) :
    Except UploadErr sbomSubjectAndURI :=
  match putResp with
  | ReqResult.transportErr m => Except.error (UploadErr.doErr m)
  | ReqResult.response s _ =>
    if s ≠ 200 then
      if s = 401 then Except.error (UploadErr.unauthorized s)
      else Except.error (UploadErr.unexpectedStatus s)
    else Except.ok (extractSubjectAndURI cdx spdx)

/-! ### The errgroup scheduling model for the concurrency bound -/

/-- A scheduler state for the dispatched entry tasks: tasks not yet started
(g.Go blocks while the limit is reached), tasks currently running, and tasks
that have returned. -/
structure PoolState where
  pending : List Nat
  running : List Nat
  finished : List Nat

/-- The scheduling steps errgroup with SetLimit permits: a pending task may
start only while fewer than the limit are running, and a running task may
finish at any time. -/
inductive PoolStep : PoolState → PoolState → Prop where
  | start (s : PoolState) (t : Nat) (hmem : t ∈ s.pending)
      (hcap : s.running.length < errgroupLimit) :
      PoolStep s ⟨s.pending.erase t, t :: s.running, s.finished⟩
  | finish (s : PoolState) (t : Nat) (hmem : t ∈ s.running) :
      PoolStep s ⟨s.pending, s.running.erase t, t :: s.finished⟩

/-- The indices of the entries for which a task is dispatched: those whose
subject and uri are not both empty. -/
def nonSkippedIndices (ssaus : List sbomSubjectAndURI) : List Nat :=
  (List.range ssaus.length).filter (fun i =>
    !((ssaus.getD i ⟨"", ""⟩).subject == "" && (ssaus.getD i ⟨"", ""⟩).uri == ""))

/-- The scheduler state when the dispatch loop has queued every task and none
has started. -/
def initPool (ssaus : List sbomSubjectAndURI) : PoolState :=
  ⟨nonSkippedIndices ssaus, [], []⟩

/-! ### Sample environments used to exercise the model on concrete inputs -/

/-- An entry environment that resolves at once and reports two blocked packages. -/
def sampleBlockedEnv : EntryEnv :=
  ⟨fun _ => ReqResult.response 200 (Body.ok ⟨7, 9⟩),
   fun _ => ReqResult.response 200 (Body.ok ⟨true, ["pkg:npm/a", "pkg:npm/b"]⟩)⟩

/-- An entry environment that answers 404 twice, then resolves. -/
def sample404ThenOkEnv : EntryEnv :=
  ⟨fun k => if k < 2 then ReqResult.response 404 Body.readErr
            else ReqResult.response 200 (Body.ok ⟨7, 9⟩),
   fun _ => ReqResult.response 200 (Body.ok ⟨false, []⟩)⟩

/-- An entry environment whose identity endpoint answers 500. -/
def sampleStatus500Env : EntryEnv :=
  ⟨fun _ => ReqResult.response 500 Body.readErr,
   fun _ => ReqResult.response 500 Body.readErr⟩

/-- An entry environment whose identity endpoint answers 404 forever. -/
def sample404ForeverEnv : EntryEnv :=
  ⟨fun _ => ReqResult.response 404 Body.readErr,
   fun _ => ReqResult.response 200 (Body.ok ⟨false, []⟩)⟩

end KusariUploader

namespace KusariUploader

/-! ### Helper lemmas about the identity-resolution loop -/

/-- If the identity endpoint answers 404 for the first k attempts after some
point and then 200 with decodable identifiers, the loop issues exactly k + 1
requests, sleeps k seconds, and exits with the identifiers. -/
theorem resolveLoopGo_retry_ok (env : EntryEnv) (tenant : String) (ssau : sbomSubjectAndURI)
    (ids : softwareIDAndSbomID) :
    ∀ k fuel attempt elapsed, k < fuel →
      (∀ j, j < k → ∃ b2, env.idResp (attempt + j) = ReqResult.response 404 b2) →
      env.idResp (attempt + k) = ReqResult.response 200 (Body.ok ids) →
      resolveLoopGo env tenant ssau fuel attempt elapsed =
        (List.replicate (k + 1) (picoURL tenant (idLookupPath ssau)),
          Except.ok (ids, elapsed + k)) := by
  intro k
  induction k with
  | zero =>
    intro fuel attempt elapsed hfuel _ h200
    match fuel, hfuel with
    | fuel + 1, _ =>
      simp only [Nat.add_zero] at h200
      simp [resolveLoopGo, h200]
  | succ k ih =>
    intro fuel attempt elapsed hfuel h404 h200
    match fuel, hfuel with
    | fuel + 1, hfuel =>
      obtain ⟨b2, hb2⟩ := h404 0 (Nat.succ_pos k)
      simp only [Nat.add_zero] at hb2
      have hrec := ih fuel (attempt + 1) (elapsed + 1) (by omega)
        (fun j hj => by
          have := h404 (j + 1) (by omega)
          simpa [Nat.add_assoc, Nat.add_comm 1 j] using this)
        (by simpa [Nat.add_assoc, Nat.add_comm 1 k] using h200)
      simp [resolveLoopGo, hb2, hrec, List.replicate_succ]
      omega

/-- If the identity endpoint answers 404 on every attempt, the loop runs until
the deadline elapses and fails with the context deadline error. -/
theorem resolveLoopGo_deadline (env : EntryEnv) (tenant : String) (ssau : sbomSubjectAndURI)
    (h404 : ∀ k, ∃ b2, env.idResp k = ReqResult.response 404 b2) :
    ∀ fuel attempt elapsed,
      (resolveLoopGo env tenant ssau fuel attempt elapsed).2 =
        Except.error (CheckErr.idsReq "context deadline exceeded") := by
  intro fuel
  induction fuel with
  | zero => intro attempt elapsed; simp [resolveLoopGo]
  | succ fuel ih =>
    intro attempt elapsed
    obtain ⟨b2, hb2⟩ := h404 attempt
    simp [resolveLoopGo, hb2, ih (attempt + 1) (elapsed + 1)]

/-- An entry whose identity endpoint answers 404 forever fails with the context
deadline error. -/
theorem entryTask_deadline (env : EntryEnv) (tenant : String) (ssau : sbomSubjectAndURI)
    (h404 : ∀ k, ∃ b2, env.idResp k = ReqResult.response 404 b2) :
    (entryTask env tenant ssau).2 =
      Except.error (CheckErr.idsReq "context deadline exceeded") := by
  have h := resolveLoopGo_deadline env tenant ssau h404 (timeoutSecs - 0) 0 0
  rcases hR : resolveLoop env tenant ssau 0 0 with ⟨tr, r⟩
  have : r = Except.error (CheckErr.idsReq "context deadline exceeded") := by
    have : (resolveLoop env tenant ssau 0 0).2 =
        Except.error (CheckErr.idsReq "context deadline exceeded") := h
    rw [hR] at this
    exact this
  subst this
  simp [entryTask, hR]

/-! ### Helper lemmas about the dispatch loop -/

/-- On a successful pass, the slot list has one slot per input entry, and slot
j holds exactly what entry j's own task produced. -/
theorem checkLoop_ok_char (env : Nat → EntryEnv) (tenant : String) :
    ∀ (l : List sbomSubjectAndURI) (i : Nat) (tr : List String)
      (os : List (Bool × List String)),
      checkLoop env tenant i l = (tr, Except.ok os) →
      os.length = l.length ∧
        ∀ j (hj : j < os.length) (hl : j < l.length),
          Except.ok (os.get ⟨j, hj⟩) = (entryResult (env (i + j)) tenant (l.get ⟨j, hl⟩)).2 := by
  intro l
  induction l with
  | nil =>
    intro i tr os h
    simp [checkLoop] at h
    simp [h.2.symm]
  | cons s rest ih =>
    intro i tr os h
    rcases hE : entryResult (env i) tenant s with ⟨tr1, r1⟩
    cases r1 with
    | error e => simp [checkLoop, hE] at h
    | ok o =>
      rcases hRest : checkLoop env tenant (i + 1) rest with ⟨tr2, r2⟩
      cases r2 with
      | error e => simp [checkLoop, hE, hRest] at h
      | ok os2 =>
        simp [checkLoop, hE, hRest] at h
        obtain ⟨h1, h2⟩ := h
        obtain ⟨hlen, hslot⟩ := ih (i + 1) tr2 os2 hRest
        subst h2
        refine ⟨by simp [hlen], ?_⟩
        intro j hj hl
        cases j with
        | zero => simp [hE]
        | succ j =>
          have := hslot j (by simpa using hj) (by simpa using hl)
          have harith : i + 1 + j = i + (j + 1) := by omega
          rw [harith] at this
          simpa using this

/-- If entry j's task fails, the whole pass fails (fail-fast g.Wait). -/
theorem checkLoop_error_of_entry (env : Nat → EntryEnv) (tenant : String) :
    ∀ (l : List sbomSubjectAndURI) (i j : Nat) (hj : j < l.length),
      (∃ e, (entryResult (env (i + j)) tenant (l.get ⟨j, hj⟩)).2 = Except.error e) →
      ∃ tr e2, checkLoop env tenant i l = (tr, Except.error e2) := by
  intro l
  induction l with
  | nil => intro i j hj; simp at hj
  | cons s rest ih =>
    intro i j hj he
    rcases hE : entryResult (env i) tenant s with ⟨tr1, r1⟩
    cases r1 with
    | error e => exact ⟨tr1, e, by simp [checkLoop, hE]⟩
    | ok o =>
      cases j with
      | zero =>
        obtain ⟨e, he⟩ := he
        rw [Nat.add_zero] at he
        simp only [List.get] at he
        rw [hE] at he
        simp at he
      | succ j =>
        have hrec := ih (i + 1) j (by simpa using hj)
          (by
            obtain ⟨e, he⟩ := he
            refine ⟨e, ?_⟩
            have harith : i + 1 + j = i + (j + 1) := by omega
            rw [harith]
            simpa using he)
        obtain ⟨tr2, e2, hrec⟩ := hrec
        exact ⟨tr1 ++ tr2, e2, by simp [checkLoop, hE, hrec]⟩

/-- A pass over entries whose subject and uri are all empty issues no request
and yields the default slots. -/
theorem checkLoop_all_empty (env : Nat → EntryEnv) (tenant : String) :
    ∀ (l : List sbomSubjectAndURI) (i : Nat),
      (∀ s ∈ l, s.subject = "" ∧ s.uri = "") →
      checkLoop env tenant i l = ([], Except.ok (l.map fun _ => (false, []))) := by
  intro l
  induction l with
  | nil => intro i _; simp [checkLoop]
  | cons s rest ih =>
    intro i h
    have hs := h s (by simp)
    have hE : entryResult (env i) tenant s = ([], Except.ok (false, [])) := by
      simp [entryResult, hs.1, hs.2]
    have hrest := ih (i + 1) (fun x hx => h x (by simp [hx]))
    simp [checkLoop, hE, hrest]

/-- If every non-skipped entry's task fails with the same error and at least
one entry is not skipped, the pass fails with that error. -/
theorem checkLoop_uniform_error (env : Nat → EntryEnv) (tenant : String) (E : CheckErr) :
    ∀ (l : List sbomSubjectAndURI) (i : Nat),
      (∀ j (hj : j < l.length),
        ¬((l.get ⟨j, hj⟩).subject = "" ∧ (l.get ⟨j, hj⟩).uri = "") →
        (entryResult (env (i + j)) tenant (l.get ⟨j, hj⟩)).2 = Except.error E) →
      (∃ j, ∃ hj : j < l.length,
        ¬((l.get ⟨j, hj⟩).subject = "" ∧ (l.get ⟨j, hj⟩).uri = "")) →
      ∃ tr, checkLoop env tenant i l = (tr, Except.error E) := by
  intro l
  induction l with
  | nil => intro i _ hsome; obtain ⟨j, hj, _⟩ := hsome; simp at hj
  | cons s rest ih =>
    intro i hall hsome
    by_cases hskip : s.subject = "" ∧ s.uri = ""
    · have hE : entryResult (env i) tenant s = ([], Except.ok (false, [])) := by
        simp [entryResult, hskip.1, hskip.2]
      have hsome2 : ∃ j, ∃ hj : j < rest.length,
          ¬((rest.get ⟨j, hj⟩).subject = "" ∧ (rest.get ⟨j, hj⟩).uri = "") := by
        obtain ⟨j, hj, hne⟩ := hsome
        cases j with
        | zero => exact absurd hskip (by simpa using hne)
        | succ j => exact ⟨j, by simpa using hj, by simpa using hne⟩
      have hall2 : ∀ j (hj : j < rest.length),
          ¬((rest.get ⟨j, hj⟩).subject = "" ∧ (rest.get ⟨j, hj⟩).uri = "") →
          (entryResult (env (i + 1 + j)) tenant (rest.get ⟨j, hj⟩)).2 = Except.error E := by
        intro j hj hne
        have := hall (j + 1) (by simpa using hj) (by simpa using hne)
        have harith : i + (j + 1) = i + 1 + j := by omega
        rw [harith] at this
        simpa using this
      obtain ⟨tr2, hrec⟩ := ih (i + 1) hall2 hsome2
      exact ⟨[] ++ tr2, by simp [checkLoop, hE, hrec]⟩
    · have hE := hall 0 (by simp) (by simpa using hskip)
      rw [Nat.add_zero] at hE
      simp only [List.get] at hE
      rcases hE2 : entryResult (env i) tenant s with ⟨tr1, r1⟩
      rw [hE2] at hE
      simp at hE
      subst hE
      exact ⟨tr1, by simp [checkLoop, hE2]⟩

/-- The behaviour of a pass does not depend on the environment at the indices
of skipped entries: a skipped entry consults its environment for nothing. -/
theorem checkLoop_env_agree (tenant : String) :
    ∀ (l : List sbomSubjectAndURI) (i : Nat) (env env2 : Nat → EntryEnv),
      (∀ j (hj : j < l.length),
        ¬((l.get ⟨j, hj⟩).subject = "" ∧ (l.get ⟨j, hj⟩).uri = "") →
        env (i + j) = env2 (i + j)) →
      checkLoop env tenant i l = checkLoop env2 tenant i l := by
  intro l
  induction l with
  | nil => intro i env env2 _; simp [checkLoop]
  | cons s rest ih =>
    intro i env env2 hagree
    have hrest := ih (i + 1) env env2 (fun j hj hne => by
      have := hagree (j + 1) (by simpa using hj) (by simpa using hne)
      have harith : i + (j + 1) = i + 1 + j := by omega
      rw [harith] at this
      exact this)
    by_cases hskip : s.subject = "" ∧ s.uri = ""
    · have hE : entryResult (env i) tenant s = ([], Except.ok (false, [])) := by
        simp [entryResult, hskip.1, hskip.2]
      have hE2 : entryResult (env2 i) tenant s = ([], Except.ok (false, [])) := by
        simp [entryResult, hskip.1, hskip.2]
      simp [checkLoop, hE, hE2, hrest]
    · have henv := hagree 0 (by simp) (by simpa using hskip)
      rw [Nat.add_zero] at henv
      simp [checkLoop, henv, hrest]

/-! ### Helper lemmas about reporting and aggregation -/

/-- The report printed after a successful pass, characterized slot by slot:
one segment per input index, in input order, a header line followed by the
blocked package identifiers and a blank line for a blocked slot, nothing for a
non-blocked one. -/
theorem reportLines_char :
    ∀ (ssaus : List sbomSubjectAndURI) (os : List (Bool × List String)),
      os.length = ssaus.length →
      reportLines ssaus os = (List.range ssaus.length).flatMap (fun i =>
        if (os.getD i (false, [])).1 then
          ("Blocked packages found for SBOM subject " ++ (ssaus.getD i ⟨"", ""⟩).subject ++
            " with URI " ++ (ssaus.getD i ⟨"", ""⟩).uri) :: (os.getD i (false, [])).2 ++ [""]
        else []) := by
  intro ssaus
  induction ssaus with
  | nil => intro os h; simp [reportLines]
  | cons s rest ih =>
    intro os h
    cases os with
    | nil => simp at h
    | cons o os2 =>
      have hlen : os2.length = rest.length := by simpa using h
      have hrec := ih os2 hlen
      rw [reportLines] at hrec
      rw [reportLines]
      simp only [List.zip_cons_cons, List.flatMap_cons, List.length_cons,
        List.range_succ_eq_map, List.flatMap_map, Function.comp, List.getD_cons_zero,
        List.getD_cons_succ]
      rw [hrec]

/-- The aggregate boolean is true exactly when some slot is blocked. -/
theorem any_blocked_iff (os : List (Bool × List String)) :
    os.any (fun o => o.1) = true ↔ ∃ i, ∃ hi : i < os.length, (os.get ⟨i, hi⟩).1 = true := by
  rw [List.any_eq_true]
  constructor
  · rintro ⟨o, ho, hb⟩
    obtain ⟨⟨i, hi⟩, rfl⟩ := List.mem_iff_get.mp ho
    exact ⟨i, hi, hb⟩
  · rintro ⟨i, hi, hb⟩
    exact ⟨os.get ⟨i, hi⟩, List.get_mem os i hi, hb⟩

/-- A pass whose slots are all at the default prints nothing. -/
theorem reportLines_all_default (ssaus : List sbomSubjectAndURI) :
    reportLines ssaus (List.replicate ssaus.length ((false : Bool), ([] : List String))) = [] := by
  induction ssaus with
  | nil => simp [reportLines]
  | cons s rest ih => simpa [reportLines, List.replicate_succ] using ih

/-! ### Helper lemmas about the document reference -/

/-- The SHA-256 digest always has 32 bytes. -/
theorem sha256Bytes_length (msg : List Nat) : (sha256Bytes msg).length = 32 := by
  simp [sha256Bytes, be32]

/-- Hex encoding yields two characters per byte. -/
theorem hexEncodeBytes_length (l : List Nat) : (hexEncodeBytes l).length = 2 * l.length := by
  induction l with
  | nil => simp [hexEncodeBytes]
  | cons b rest ih => simp [hexEncodeBytes] at *; omega

/-- Every character the hex encoder emits is a lowercase hex digit. -/
theorem lowerHexDigit_mem (n : Nat) : lowerHexDigit n ∈ hexTable.data := by
  by_cases h : n < 16
  · unfold lowerHexDigit hexTable
    interval_cases n <;> decide
  · have h16 : hexTable.data.length ≤ n := by
      have : hexTable.data.length = 16 := by decide
      omega
    rw [lowerHexDigit, List.getD_eq_default _ _ h16]
    decide

/-- Membership form of the previous lemma for encoded byte lists. -/
theorem hexEncodeBytes_mem (l : List Nat) :
    ∀ c ∈ hexEncodeBytes l, c ∈ hexTable.data := by
  intro c hc
  rw [hexEncodeBytes, List.mem_flatMap] at hc
  obtain ⟨b, _, hc⟩ := hc
  simp only [List.mem_cons, List.mem_singleton] at hc
  rcases hc with h | h | h
  · rw [h]; exact lowerHexDigit_mem _
  · rw [h]; exact lowerHexDigit_mem _
  · simp at h

/-! ### The claims -/

/-- C1: On success (no entry task returns an error), checkSBOMsForBlockedPackages
returns true if and only if at least one entry's check response had blocked
true; and for every blocked entry, in input order, it prints the header line
for the subject and URI followed by that entry's blocked package list verbatim,
one identifier per line, in the order received from the check endpoint. -/
theorem C1_success_aggregation_reporting (env : Nat → EntryEnv) (tenant : String)
    (ssaus : List sbomSubjectAndURI) (tr : List String) (os : List (Bool × List String))
    (h : checkLoop env tenant 0 ssaus = (tr, Except.ok os)) :
    ((checkSBOMsForBlockedPackages env tenant ssaus).result = Except.ok true ↔
      ∃ i, ∃ hi : i < os.length, (os.get ⟨i, hi⟩).1 = true)
  ∧ (checkSBOMsForBlockedPackages env tenant ssaus).stdout =
      (List.range ssaus.length).flatMap (fun i =>
        if (os.getD i (false, [])).1 then
          ("Blocked packages found for SBOM subject " ++ (ssaus.getD i ⟨"", ""⟩).subject ++
            " with URI " ++ (ssaus.getD i ⟨"", ""⟩).uri) :: (os.getD i (false, [])).2 ++ [""]
        else [])
  ∧ ∀ i (hi : i < os.length) (hl : i < ssaus.length),
      Except.ok (os.get ⟨i, hi⟩) = (entryResult (env i) tenant (ssaus.get ⟨i, hl⟩)).2 := by
  obtain ⟨hlen, hslot⟩ := checkLoop_ok_char env tenant ssaus 0 tr os h
  have hrun : checkSBOMsForBlockedPackages env tenant ssaus =
      ⟨tr, reportLines ssaus os, Except.ok (os.any fun o => o.1)⟩ := by
    simp [checkSBOMsForBlockedPackages, h]
  refine ⟨?_, ?_, ?_⟩
  · rw [hrun]
    simpa using any_blocked_iff os
  · rw [hrun]
    exact reportLines_char ssaus os hlen
  · intro i hi hl
    simpa using hslot i hi hl

/-- Witness for C1: a concrete blocked entry, checked against the theorem. -/
theorem C1_success_aggregation_reporting_witness :
    (checkLoop (fun _ => sampleBlockedEnv) "T" 0 [⟨"s1", "u1"⟩] =
      (["T/pico/v1/software/id?software_name=s1&sbom_uri=u1",
        "T/pico/v1/packages/blocked/check/software/7/sbom/9"],
        Except.ok [(true, ["pkg:npm/a", "pkg:npm/b"])]))
  ∧ (((checkSBOMsForBlockedPackages (fun _ => sampleBlockedEnv) "T" [⟨"s1", "u1"⟩]).result =
        Except.ok true ↔
      ∃ i, ∃ hi : i < [((true : Bool), ["pkg:npm/a", "pkg:npm/b"])].length,
        (([((true : Bool), ["pkg:npm/a", "pkg:npm/b"])]).get ⟨i, hi⟩).1 = true)
    ∧ (checkSBOMsForBlockedPackages (fun _ => sampleBlockedEnv) "T" [⟨"s1", "u1"⟩]).stdout =
        (List.range ([(⟨"s1", "u1"⟩ : sbomSubjectAndURI)]).length).flatMap (fun i =>
          if (([((true : Bool), ["pkg:npm/a", "pkg:npm/b"])]).getD i (false, [])).1 then
            ("Blocked packages found for SBOM subject " ++
              (([(⟨"s1", "u1"⟩ : sbomSubjectAndURI)]).getD i ⟨"", ""⟩).subject ++
              " with URI " ++ (([(⟨"s1", "u1"⟩ : sbomSubjectAndURI)]).getD i ⟨"", ""⟩).uri) ::
              (([((true : Bool), ["pkg:npm/a", "pkg:npm/b"])]).getD i (false, [])).2 ++ [""]
          else [])
    ∧ ∀ i (hi : i < ([((true : Bool), ["pkg:npm/a", "pkg:npm/b"])]).length)
        (hl : i < ([(⟨"s1", "u1"⟩ : sbomSubjectAndURI)]).length),
        Except.ok (([((true : Bool), ["pkg:npm/a", "pkg:npm/b"])]).get ⟨i, hi⟩) =
          (entryResult ((fun _ => sampleBlockedEnv) i) "T"
            (([(⟨"s1", "u1"⟩ : sbomSubjectAndURI)]).get ⟨i, hl⟩)).2) :=
  ⟨rfl, C1_success_aggregation_reporting (fun _ => sampleBlockedEnv) "T" [⟨"s1", "u1"⟩]
    ["T/pico/v1/software/id?software_name=s1&sbom_uri=u1",
      "T/pico/v1/packages/blocked/check/software/7/sbom/9"]
    [(true, ["pkg:npm/a", "pkg:npm/b"])] rfl⟩

/-- C2: If any single entry's task fails, checkSBOMsForBlockedPackages returns a
non-nil error and no verdict is produced: nothing is printed and no partial
aggregate is returned, regardless of the other entries' outcomes. -/
theorem C2_fail_fast_on_entry_error (env : Nat → EntryEnv) (tenant : String)
    (ssaus : List sbomSubjectAndURI) (i : Nat) (hi : i < ssaus.length)
    (he : ∃ e, (entryResult (env i) tenant (ssaus.get ⟨i, hi⟩)).2 = Except.error e) :
    (checkSBOMsForBlockedPackages env tenant ssaus).stdout = [] ∧
    ∃ e2, (checkSBOMsForBlockedPackages env tenant ssaus).result = Except.error e2 := by
  obtain ⟨tr, e2, h⟩ := checkLoop_error_of_entry env tenant ssaus 0 i hi (by simpa using he)
  exact ⟨by simp [checkSBOMsForBlockedPackages, h],
    e2, by simp [checkSBOMsForBlockedPackages, h]⟩

/-- Witness for C2: the first of two entries hits an unexpected status while
the second entry would have reported a blocked package. -/
theorem C2_fail_fast_on_entry_error_witness :
    (∃ e, (entryResult ((fun i => if i = 0 then sampleStatus500Env else sampleBlockedEnv) 0)
        "T" (([(⟨"s", "u"⟩ : sbomSubjectAndURI), ⟨"x", "y"⟩]).get ⟨0, by decide⟩)).2 =
        Except.error e)
  ∧ (checkSBOMsForBlockedPackages (fun i => if i = 0 then sampleStatus500Env else sampleBlockedEnv)
      "T" [⟨"s", "u"⟩, ⟨"x", "y"⟩]).stdout = []
  ∧ ∃ e2, (checkSBOMsForBlockedPackages
      (fun i => if i = 0 then sampleStatus500Env else sampleBlockedEnv)
      "T" [⟨"s", "u"⟩, ⟨"x", "y"⟩]).result = Except.error e2 := by
  refine ⟨⟨CheckErr.idsStatus 500, rfl⟩, ?_⟩
  exact C2_fail_fast_on_entry_error
    (fun i => if i = 0 then sampleStatus500Env else sampleBlockedEnv) "T"
    [⟨"s", "u"⟩, ⟨"x", "y"⟩] 0 (by decide) ⟨CheckErr.idsStatus 500, rfl⟩

/-- C4: For every input sequence in which every entry has both subject and uri
empty, checkSBOMsForBlockedPackages returns false with no error and issues no
HTTP request. -/
theorem C4_all_empty_no_requests (env : Nat → EntryEnv) (tenant : String)
    (ssaus : List sbomSubjectAndURI) (h : ∀ s ∈ ssaus, s.subject = "" ∧ s.uri = "") :
    checkSBOMsForBlockedPackages env tenant ssaus = ⟨[], [], Except.ok false⟩ := by
  have hl := checkLoop_all_empty env tenant ssaus 0 h
  have hrep := reportLines_all_default ssaus
  simp [checkSBOMsForBlockedPackages, hl, hrep]

/-- Witness for C4: two empty entries against an environment that would block. -/
theorem C4_all_empty_no_requests_witness :
    (∀ s ∈ ([(⟨"", ""⟩ : sbomSubjectAndURI), ⟨"", ""⟩]), s.subject = "" ∧ s.uri = "")
  ∧ checkSBOMsForBlockedPackages (fun _ => sampleBlockedEnv) "T" [⟨"", ""⟩, ⟨"", ""⟩] =
      ⟨[], [], Except.ok false⟩ :=
  ⟨by decide, C4_all_empty_no_requests (fun _ => sampleBlockedEnv) "T"
    [⟨"", ""⟩, ⟨"", ""⟩] (by decide)⟩

/-- C5: On every successful pass the slot list has exactly one slot per input
entry, slot i holds precisely what entry i's own task produced (a function of
entry i's environment and fields alone), and a skipped entry's slot stays at
the default not-blocked value, keeping indices aligned. -/
theorem C5_slot_alignment (env : Nat → EntryEnv) (tenant : String)
    (ssaus : List sbomSubjectAndURI) (tr : List String) (os : List (Bool × List String))
    (h : checkLoop env tenant 0 ssaus = (tr, Except.ok os)) :
    os.length = ssaus.length
  ∧ (∀ i (hi : i < os.length) (hl : i < ssaus.length),
      Except.ok (os.get ⟨i, hi⟩) = (entryResult (env i) tenant (ssaus.get ⟨i, hl⟩)).2)
  ∧ (∀ i (hi : i < os.length) (hl : i < ssaus.length),
      (ssaus.get ⟨i, hl⟩).subject = "" → (ssaus.get ⟨i, hl⟩).uri = "" →
      os.get ⟨i, hi⟩ = (false, [])) := by
  obtain ⟨hlen, hslot⟩ := checkLoop_ok_char env tenant ssaus 0 tr os h
  refine ⟨hlen, fun i hi hl => by simpa using hslot i hi hl, ?_⟩
  intro i hi hl h1 h2
  have hs := hslot i hi hl
  simp only [Nat.zero_add] at hs
  rw [entryResult, if_pos ⟨h1, h2⟩] at hs
  simpa using hs

/-- Witness for C5: a skipped entry between two checked entries. -/
theorem C5_slot_alignment_witness :
    (checkLoop (fun _ => sampleBlockedEnv) "T" 0 [⟨"s1", "u1"⟩, ⟨"", ""⟩] =
      (["T/pico/v1/software/id?software_name=s1&sbom_uri=u1",
        "T/pico/v1/packages/blocked/check/software/7/sbom/9"],
        Except.ok [(true, ["pkg:npm/a", "pkg:npm/b"]), (false, [])]))
  ∧ (([((true : Bool), ["pkg:npm/a", "pkg:npm/b"]), ((false : Bool), ([] : List String))]).length =
      ([(⟨"s1", "u1"⟩ : sbomSubjectAndURI), ⟨"", ""⟩]).length
    ∧ (∀ i (hi : i < ([((true : Bool), ["pkg:npm/a", "pkg:npm/b"]), ((false : Bool), ([] : List String))]).length)
        (hl : i < ([(⟨"s1", "u1"⟩ : sbomSubjectAndURI), ⟨"", ""⟩]).length),
        Except.ok (([((true : Bool), ["pkg:npm/a", "pkg:npm/b"]), ((false : Bool), ([] : List String))]).get ⟨i, hi⟩) =
          (entryResult ((fun _ => sampleBlockedEnv) i) "T"
            (([(⟨"s1", "u1"⟩ : sbomSubjectAndURI), ⟨"", ""⟩]).get ⟨i, hl⟩)).2)
    ∧ (∀ i (hi : i < ([((true : Bool), ["pkg:npm/a", "pkg:npm/b"]), ((false : Bool), ([] : List String))]).length)
        (hl : i < ([(⟨"s1", "u1"⟩ : sbomSubjectAndURI), ⟨"", ""⟩]).length),
        (([(⟨"s1", "u1"⟩ : sbomSubjectAndURI), ⟨"", ""⟩]).get ⟨i, hl⟩).subject = "" →
        (([(⟨"s1", "u1"⟩ : sbomSubjectAndURI), ⟨"", ""⟩]).get ⟨i, hl⟩).uri = "" →
        ([((true : Bool), ["pkg:npm/a", "pkg:npm/b"]), ((false : Bool), ([] : List String))]).get ⟨i, hi⟩ =
          (false, []))) :=
  ⟨rfl, C5_slot_alignment (fun _ => sampleBlockedEnv) "T" [⟨"s1", "u1"⟩, ⟨"", ""⟩]
    ["T/pico/v1/software/id?software_name=s1&sbom_uri=u1",
      "T/pico/v1/packages/blocked/check/software/7/sbom/9"]
    [(true, ["pkg:npm/a", "pkg:npm/b"]), (false, [])] rfl⟩

/-- C3: For a non-skipped entry the identity-resolution loop issues the GET
with both query parameters URL-escaped; a run of k answers of 404 (each
followed by the one-second backoff sleep) before a parseable 200 makes the
loop issue exactly k + 1 such requests, for any k bounded only by the overall
deadline, and then exit to perform the check call; any other status fails the
entry immediately with an unexpected-status error. -/
theorem C3_identity_resolution_loop (env : EntryEnv) (tenant : String)
    (ssau : sbomSubjectAndURI) (ids : softwareIDAndSbomID) (k s : Nat)
    (b : Body softwareIDAndSbomID) :
    (k < timeoutSecs →
      (∀ j, j < k → ∃ b2, env.idResp j = ReqResult.response 404 b2) →
      env.idResp k = ReqResult.response 200 (Body.ok ids) →
      resolveLoop env tenant ssau 0 0 =
        (List.replicate (k + 1) (picoURL tenant (idLookupPath ssau)), Except.ok (ids, k))
      ∧ (entryTask env tenant ssau).1 =
          List.replicate (k + 1) (picoURL tenant (idLookupPath ssau)) ++
            [picoURL tenant (checkPath ids)])
  ∧ (env.idResp 0 = ReqResult.response s b → s ≠ 200 → s ≠ 404 →
      entryTask env tenant ssau =
        ([picoURL tenant (idLookupPath ssau)], Except.error (CheckErr.idsStatus s)))
  ∧ idLookupPath ⟨"my pkg", "urn:uuid:1"⟩ =
      "pico/v1/software/id?software_name=my+pkg&sbom_uri=urn%3Auuid%3A1" := by
  refine ⟨?_, ?_, rfl⟩
  · intro hk h404 h200
    have hres : resolveLoop env tenant ssau 0 0 =
        (List.replicate (k + 1) (picoURL tenant (idLookupPath ssau)), Except.ok (ids, k)) := by
      have := resolveLoopGo_retry_ok env tenant ssau ids k (timeoutSecs - 0) 0 0
        (by omega) (fun j hj => by simpa using h404 j hj) (by simpa using h200)
      simpa [resolveLoop] using this
    refine ⟨hres, ?_⟩
    have hkt : ¬ timeoutSecs ≤ k := by omega
    rw [entryTask, hres]
    simp only [hkt, if_false]
    cases hc : env.checkResp ids with
    | transportErr m => simp
    | response s2 b2 =>
      by_cases hs2 : s2 = 200
      · subst hs2
        cases b2 with
        | readErr => simp
        | parseErr => simp
        | ok bps => by_cases hbl : bps.blocked <;> simp [hbl]
      · simp [hs2]
  · intro h0 hs200 hs404
    have hres : resolveLoop env tenant ssau 0 0 =
        ([picoURL tenant (idLookupPath ssau)], Except.error (CheckErr.idsStatus s)) := by
      rw [resolveLoop]
      have : 0 < timeoutSecs - 0 := by decide
      match htime : timeoutSecs - 0, this with
      | fuel + 1, _ => simp [resolveLoopGo, h0, hs200, hs404]
    rw [entryTask, hres]

/-- Witness for C3: two 404 answers then a 200 exercise the retry conjunct,
and a 500 answer exercises the immediate-failure conjunct. -/
theorem C3_identity_resolution_loop_witness :
    (resolveLoop sample404ThenOkEnv "T" ⟨"s1", "u1"⟩ 0 0 =
      (List.replicate 3 (picoURL "T" (idLookupPath ⟨"s1", "u1"⟩)),
        Except.ok (⟨7, 9⟩, 2))
      ∧ (entryTask sample404ThenOkEnv "T" ⟨"s1", "u1"⟩).1 =
          List.replicate 3 (picoURL "T" (idLookupPath ⟨"s1", "u1"⟩)) ++
            [picoURL "T" (checkPath ⟨7, 9⟩)])
  ∧ entryTask sampleStatus500Env "T" ⟨"s1", "u1"⟩ =
      ([picoURL "T" (idLookupPath ⟨"s1", "u1"⟩)], Except.error (CheckErr.idsStatus 500)) :=
  ⟨(C3_identity_resolution_loop sample404ThenOkEnv "T" ⟨"s1", "u1"⟩ ⟨7, 9⟩ 2 500
      Body.readErr).1 (by decide)
      (fun j hj => ⟨Body.readErr, by simp [sample404ThenOkEnv, hj]⟩) rfl,
    (C3_identity_resolution_loop sampleStatus500Env "T" ⟨"s1", "u1"⟩ ⟨7, 9⟩ 2 500
      Body.readErr).2.1 rfl (by decide) (by decide)⟩

/-- C7: The operation is bounded by the 15-minute overall deadline: if every
non-skipped entry keeps answering 404 in the identity-resolution loop (and at
least one entry is non-skipped), the deadline elapses and
checkSBOMsForBlockedPackages returns the context deadline error rather than a
verdict. -/
theorem C7_overall_deadline (env : Nat → EntryEnv) (tenant : String)
    (ssaus : List sbomSubjectAndURI)
    (h404 : ∀ i k, ∃ b2, (env i).idResp k = ReqResult.response 404 b2)
    (hsome : ∃ j, ∃ hj : j < ssaus.length,
      ¬((ssaus.get ⟨j, hj⟩).subject = "" ∧ (ssaus.get ⟨j, hj⟩).uri = "")) :
    (checkSBOMsForBlockedPackages env tenant ssaus).result =
      Except.error (CheckErr.idsReq "context deadline exceeded") := by
  have hall : ∀ j (hj : j < ssaus.length),
      ¬((ssaus.get ⟨j, hj⟩).subject = "" ∧ (ssaus.get ⟨j, hj⟩).uri = "") →
      (entryResult (env (0 + j)) tenant (ssaus.get ⟨j, hj⟩)).2 =
        Except.error (CheckErr.idsReq "context deadline exceeded") := by
    intro j hj hne
    rw [entryResult, if_neg hne]
    exact entryTask_deadline (env (0 + j)) tenant (ssaus.get ⟨j, hj⟩)
      (fun k => h404 (0 + j) k)
  obtain ⟨tr, h⟩ := checkLoop_uniform_error env tenant
    (CheckErr.idsReq "context deadline exceeded") ssaus 0 hall hsome
  simp [checkSBOMsForBlockedPackages, h]

/-- Witness for C7: one entry stuck on 404 forever. -/
theorem C7_overall_deadline_witness :
    (∃ j, ∃ hj : j < ([(⟨"s", "u"⟩ : sbomSubjectAndURI)]).length,
      ¬((([(⟨"s", "u"⟩ : sbomSubjectAndURI)]).get ⟨j, hj⟩).subject = "" ∧
        (([(⟨"s", "u"⟩ : sbomSubjectAndURI)]).get ⟨j, hj⟩).uri = ""))
  ∧ (checkSBOMsForBlockedPackages (fun _ => sample404ForeverEnv) "T" [⟨"s", "u"⟩]).result =
      Except.error (CheckErr.idsReq "context deadline exceeded") :=
  ⟨⟨0, by decide, by decide⟩,
    C7_overall_deadline (fun _ => sample404ForeverEnv) "T" [⟨"s", "u"⟩]
      (fun _ _ => ⟨Body.readErr, rfl⟩) ⟨0, by decide, by decide⟩⟩

/-- C6 as stated is false: an entry with an empty uri but a non-empty subject
is not skipped — its task issues the identity request and here fails the whole
pass with an unexpected-status error instead of contributing a default
not-blocked outcome. -/
theorem C6_counterexample :
    (checkSBOMsForBlockedPackages (fun _ => sampleStatus500Env) "T" [⟨"pkg", ""⟩]).trace ≠ []
  ∧ (checkSBOMsForBlockedPackages (fun _ => sampleStatus500Env) "T" [⟨"pkg", ""⟩]).result =
      Except.error (CheckErr.idsStatus 500) := by
  exact ⟨by decide, rfl⟩

/-- C6 amended: every entry in which both the subject field and the uri field
are empty is treated as not checkable and skipped without error: it contributes
the default not-blocked outcome, and no HTTP call is made for it — the whole
pass is unchanged when the environment of every such entry is replaced
arbitrarily. -/
theorem C6_both_empty_skipped (env env2 : Nat → EntryEnv) (tenant : String)
    (ssaus : List sbomSubjectAndURI)
    (hagree : ∀ j (hj : j < ssaus.length),
      ¬((ssaus.get ⟨j, hj⟩).subject = "" ∧ (ssaus.get ⟨j, hj⟩).uri = "") →
      env j = env2 j) :
    checkSBOMsForBlockedPackages env tenant ssaus =
      checkSBOMsForBlockedPackages env2 tenant ssaus
  ∧ (∀ e ssau, ssau.subject = "" → ssau.uri = "" →
      entryResult e tenant ssau = ([], Except.ok (false, [])))
  ∧ (∀ tr os, checkLoop env tenant 0 ssaus = (tr, Except.ok os) →
      ∀ i (hi : i < os.length) (hl : i < ssaus.length),
        (ssaus.get ⟨i, hl⟩).subject = "" → (ssaus.get ⟨i, hl⟩).uri = "" →
        os.get ⟨i, hi⟩ = (false, [])) := by
  refine ⟨?_, ?_, ?_⟩
  · have := checkLoop_env_agree tenant ssaus 0 env env2
      (fun j hj hne => by simpa using hagree j hj hne)
    rw [checkSBOMsForBlockedPackages, checkSBOMsForBlockedPackages, this]
  · intro e ssau h1 h2
    rw [entryResult, if_pos ⟨h1, h2⟩]
  · intro tr os h i hi hl h1 h2
    obtain ⟨hlen, hslot⟩ := checkLoop_ok_char env tenant ssaus 0 tr os h
    have hs := hslot i hi hl
    simp only [Nat.zero_add] at hs
    rw [entryResult, if_pos ⟨h1, h2⟩] at hs
    simpa using hs

/-- Witness for C6 amended: a skipped entry's environment is swapped from an
always-blocking one to an always-404 one with no observable difference. -/
theorem C6_both_empty_skipped_witness :
    checkSBOMsForBlockedPackages (fun _ => sampleBlockedEnv) "T" [⟨"", ""⟩] =
      checkSBOMsForBlockedPackages (fun _ => sample404ForeverEnv) "T" [⟨"", ""⟩]
  ∧ (∀ e ssau, ssau.subject = "" → ssau.uri = "" →
      entryResult e "T" ssau = ([], Except.ok (false, [])))
  ∧ (∀ tr os, checkLoop (fun _ => sampleBlockedEnv) "T" 0 [⟨"", ""⟩] = (tr, Except.ok os) →
      ∀ i (hi : i < os.length) (hl : i < ([(⟨"", ""⟩ : sbomSubjectAndURI)]).length),
        (([(⟨"", ""⟩ : sbomSubjectAndURI)]).get ⟨i, hl⟩).subject = "" →
        (([(⟨"", ""⟩ : sbomSubjectAndURI)]).get ⟨i, hl⟩).uri = "" →
        os.get ⟨i, hi⟩ = (false, [])) :=
  C6_both_empty_skipped (fun _ => sampleBlockedEnv) (fun _ => sample404ForeverEnv) "T"
    [⟨"", ""⟩] (by
      intro j hj hne
      cases j with
      | zero => exact absurd ⟨rfl, rfl⟩ hne
      | succ j => simp at hj)

/-- C8: In every schedule the errgroup with SetLimit(5) admits, starting from
the state in which the dispatch loop has queued all non-skipped entries, at
most 5 entry tasks are running at any moment; the remaining tasks queue until
a slot frees. -/
theorem C8_concurrency_bound (ssaus : List sbomSubjectAndURI) (s : PoolState)
    (h : Relation.ReflTransGen PoolStep (initPool ssaus) s) :
    s.running.length ≤ 5 := by
  induction h with
  | refl => simp [initPool]
  | tail hsteps hstep ih =>
    cases hstep with
    | start t hmem hcap =>
      unfold errgroupLimit at hcap
      simp only [List.length_cons]
      omega
    | finish t hmem =>
      exact le_trans (List.Sublist.length_le (List.erase_sublist _ _)) ih

/-- Witness for C8: the initial state of a three-entry batch is reachable. -/
theorem C8_concurrency_bound_witness :
    (initPool [⟨"a", "b"⟩, ⟨"", ""⟩, ⟨"c", "d"⟩]).running.length ≤ 5 :=
  C8_concurrency_bound [⟨"a", "b"⟩, ⟨"", ""⟩, ⟨"c", "d"⟩] _ Relation.ReflTransGen.refl

/-- C9: After a successful PUT, subject and URI extraction is best-effort and
never fails the upload: a CycloneDX parse with the right format marker and
non-empty name and serial number yields that pair; otherwise an SPDX parse
with the document SPDXID and non-empty name and namespace yields the name and
a URI derived from the namespace; in every other case, including malformed
JSON, the result is an empty entry and no error. -/
theorem C9_extraction_best_effort (b : Body Unit) (cdx : Option cdxSBOM)
    (spdx : Option spdxSBOM) :
    (∃ ssau, uploadBlob (ReqResult.response 200 b) cdx spdx = Except.ok ssau)
  ∧ (∀ c, cdx = some c → c.bomFormat = "CycloneDX" → c.metadata.component.name ≠ "" →
      c.serialNumber ≠ "" →
      uploadBlob (ReqResult.response 200 b) cdx spdx =
        Except.ok ⟨c.metadata.component.name, c.serialNumber⟩)
  ∧ (∀ sp, spdx = some sp →
      (∀ c, cdx = some c →
        ¬(c.bomFormat = "CycloneDX" ∧ c.metadata.component.name ≠ "" ∧ c.serialNumber ≠ "")) →
      sp.SPDXID = "SPDXRef-DOCUMENT" → sp.name ≠ "" → sp.documentNamespace ≠ "" →
      uploadBlob (ReqResult.response 200 b) cdx spdx =
        Except.ok ⟨sp.name, sp.documentNamespace ++ "#DOCUMENT"⟩)
  ∧ ((∀ c, cdx = some c →
        ¬(c.bomFormat = "CycloneDX" ∧ c.metadata.component.name ≠ "" ∧ c.serialNumber ≠ "")) →
      (∀ sp, spdx = some sp →
        ¬(sp.SPDXID = "SPDXRef-DOCUMENT" ∧ sp.name ≠ "" ∧ sp.documentNamespace ≠ "")) →
      uploadBlob (ReqResult.response 200 b) cdx spdx = Except.ok ⟨"", ""⟩) := by
  have h200 : uploadBlob (ReqResult.response 200 b) cdx spdx =
      Except.ok (extractSubjectAndURI cdx spdx) := by
    simp [uploadBlob]
  refine ⟨⟨extractSubjectAndURI cdx spdx, h200⟩, ?_, ?_, ?_⟩
  · intro c hc h1 h2 h3
    rw [h200, hc, extractSubjectAndURI, if_pos ⟨h1, h2, h3⟩]
  · intro sp hsp hcfail h1 h2 h3
    rw [h200, hsp]
    cases hc : cdx with
    | none => rw [extractSubjectAndURI, extractSPDX, if_pos ⟨h1, h2, h3⟩]
    | some c =>
      rw [extractSubjectAndURI, if_neg (hcfail c hc), extractSPDX, if_pos ⟨h1, h2, h3⟩]
  · intro hcfail hspfail
    rw [h200]
    have hsp : extractSPDX spdx = ⟨"", ""⟩ := by
      cases hs : spdx with
      | none => rw [extractSPDX]
      | some sp => rw [extractSPDX, if_neg (hspfail sp hs)]
    cases hc : cdx with
    | none => rw [extractSubjectAndURI, hsp]
    | some c => rw [extractSubjectAndURI, if_neg (hcfail c hc), hsp]

/-- Witness for C9: a well-formed CycloneDX parse and the malformed-JSON case. -/
theorem C9_extraction_best_effort_witness :
    uploadBlob (ReqResult.response 200 (Body.ok ()))
      (some ⟨"CycloneDX", "urn:uuid:42", ⟨⟨"comp"⟩⟩⟩) none =
      Except.ok ⟨"comp", "urn:uuid:42"⟩
  ∧ uploadBlob (ReqResult.response 200 (Body.ok ()))
      (none : Option cdxSBOM) (none : Option spdxSBOM) = Except.ok ⟨"", ""⟩ :=
  ⟨(C9_extraction_best_effort (Body.ok ())
      (some ⟨"CycloneDX", "urn:uuid:42", ⟨⟨"comp"⟩⟩⟩) none).2.1
      ⟨"CycloneDX", "urn:uuid:42", ⟨⟨"comp"⟩⟩⟩ rfl rfl (by decide) (by decide),
    (C9_extraction_best_effort (Body.ok ()) none none).2.2.2
      (fun c hc => by simp at hc) (fun sp hsp => by simp at hsp)⟩

/-- C10: getDocRef of a byte sequence — used both as the presign request's
filename and as the uploaded document's DocumentRef — is the string sha256_
followed by the 64-character lowercase hexadecimal encoding of the SHA-256
digest of the bytes, so identical contents always yield identical keys. -/
theorem C10_doc_ref_sha256 (blob blob2 : List Nat) (hb : blob = blob2) :
    presignFilename blob = getDocRef blob
  ∧ documentRef blob = getDocRef blob
  ∧ getDocRef blob = "sha256_" ++ String.mk (hexEncodeBytes (sha256Bytes blob))
  ∧ (sha256Bytes blob).length = 32
  ∧ (String.mk (hexEncodeBytes (sha256Bytes blob))).length = 64
  ∧ (∀ c ∈ hexEncodeBytes (sha256Bytes blob), c ∈ hexTable.data)
  ∧ getDocRef blob = getDocRef blob2 := by
  refine ⟨rfl, rfl, rfl, sha256Bytes_length blob, ?_, hexEncodeBytes_mem _, by rw [hb]⟩
  show (hexEncodeBytes (sha256Bytes blob)).length = 64
  rw [hexEncodeBytes_length, sha256Bytes_length]

/-- Witness for C10: the one-byte blob 0x61. -/
theorem C10_doc_ref_sha256_witness :
    presignFilename [97] = getDocRef [97]
  ∧ documentRef [97] = getDocRef [97]
  ∧ getDocRef [97] = "sha256_" ++ String.mk (hexEncodeBytes (sha256Bytes [97]))
  ∧ (sha256Bytes [97]).length = 32
  ∧ (String.mk (hexEncodeBytes (sha256Bytes [97]))).length = 64
  ∧ (∀ c ∈ hexEncodeBytes (sha256Bytes [97]), c ∈ hexTable.data)
  ∧ getDocRef [97] = getDocRef [97] :=
  C10_doc_ref_sha256 [97] [97] rfl

end KusariUploader
